import Mathlib

/-!
Verification of the Anker Solix balcony power plant monitor.

This file gives a shallow embedding of the firmware in src/main.cpp
(fetching, the control loop, graph scaling and coordinate mapping, numeric
formatting, timestamp handling) together with the axis ladder computation
of the accompanying layout sketch (roundUpToNiceValue, arrayMax), and
proves the specified properties about those definitions.

Modelling conventions:
  - C floats carrying data values are modelled as rationals; a float that
    is NaN ("unknown") is modelled as Option.none.
  - The HTTP client and the JSON codec are external collaborators: a
    transport exchange is modelled by its status code together with the
    already-parsed body, where Option.none stands for a body that failed
    to deserialize.
  - millis() values are 32-bit; the elapsed-time subtraction is modelled
    with an explicit wraparound modulo 2^32.
-/

namespace Solix

/-- Number of samples per day (hourly), from main.cpp. -/
def POINTS_PER_DAY : Nat := 24

/-- Refresh interval in milliseconds (5 minutes), from main.cpp. -/
def REFRESH_INTERVAL_MS : Nat := 5 * 60 * 1000

/-- Structured value produced by the JSON codec. -/
inductive JsonVal where
  | null
  | num (value : ℚ)
  | str (s : String)
  | arr (elems : List JsonVal)
  | obj (fields : List (String × JsonVal))

/-- Member access doc[key] on an ArduinoJson document: null when the
document is not an object or the key is absent. -/
def jsonLookup (j : JsonVal) (key : String) : JsonVal :=
  match j with
  | JsonVal.obj fields =>
      match fields.find? (fun p => p.1 == key) with
      | some p => p.2
      | none => JsonVal.null
  | _ => JsonVal.null

/-- Models the ArduinoJson expression doc[key] | NAN : the numeric value
when the member holds a number, otherwise NaN (modelled as none). -/
def jsonNumOr (j : JsonVal) : Option ℚ :=
  match j with
  | JsonVal.num q => some q
  | _ => none

/-- Scalar field extraction doc[key] | NAN. -/
def jsonNumField (doc : JsonVal) (key : String) : Option ℚ :=
  jsonNumOr (jsonLookup doc key)

/-- Models value.as of JsonArray: the element list for an array value,
the empty (null) array otherwise, whose size is 0. -/
def jsonAsArr (j : JsonVal) : List JsonVal :=
  match j with
  | JsonVal.arr elems => elems
  | _ => []

/-- Models element.as of float on curve entries: numbers give their
value, anything else gives 0. -/
def jsonAsFloat (j : JsonVal) : ℚ :=
  match j with
  | JsonVal.num q => q
  | _ => 0

/-- Models reading a const char pointer from a document member: non-null
exactly when the member holds a string. -/
def jsonAsStr (j : JsonVal) : Option String :=
  match j with
  | JsonVal.str s => some s
  | _ => none

/-- The data a fetch fills in by reference: three scalars (none = NaN)
and the two hourly curves. -/
structure CurveStore where
  batteryPercent : Option ℚ
  dailyGeneration : Option ℚ
  dailyConsumption : Option ℚ
  generationCurve : List ℚ
  consumptionCurve : List ℚ
deriving DecidableEq

/-- The fresh store the loop builds each iteration: NaN scalars and two
zero-filled 24-sample vectors (main.cpp loop, lines 240-244). -/
def emptyStore : CurveStore :=
  ⟨none, none, none, List.replicate POINTS_PER_DAY 0, List.replicate POINTS_PER_DAY 0⟩

/-- Anker cloud configuration from secrets.h. -/
structure AnkerConfig where
  authUrl : String
  energyUrl : String
  user : String
  password : String
  country : String

/-- Local smart-meter configuration from secrets.h. -/
structure MeterConfig where
  host : String
  endpoint : String
  token : String

/-- One HTTP transport call, as observed at the collaborator boundary. -/
inductive HttpCall where
  | post (url : String) (body : JsonVal)
  | get (url : String) (auth : Option String)

/-- Transport environment for one Anker cloud fetch: the status and parsed
body of the auth POST and of the energy GET (none = deserialization error). -/
structure CloudEnv where
  authStatus : Int
  authDoc : Option JsonVal
  energyStatus : Int
  energyDoc : Option JsonVal

/-- Transport environment for one smart-meter fetch. -/
structure MeterEnv where
  status : Int
  doc : Option JsonVal

/-- HTTP_CODE_OK. -/
def HTTP_CODE_OK : Int := 200

/-- fetchAnkerData from main.cpp: returns the success flag, the updated
by-reference store, and the list of transport calls performed. -/
def fetchAnkerData (cfg : AnkerConfig) (env : CloudEnv) (st : CurveStore) :
    Bool × CurveStore × List HttpCall :=
  if cfg.authUrl.length = 0 ∨ cfg.energyUrl.length = 0 then
    (false, st, [])
  else
    let loginBody : JsonVal :=
      JsonVal.obj [("userAccount", JsonVal.str cfg.user),
                   ("password", JsonVal.str cfg.password),
                   ("country", JsonVal.str cfg.country)]
    let authCall := HttpCall.post cfg.authUrl loginBody
    if env.authStatus ≠ HTTP_CODE_OK then
      (false, st, [authCall])
    else
      match env.authDoc with
      | none => (false, st, [authCall])
      | some adoc =>
        match jsonAsStr (jsonLookup adoc ("access_token")) with
        | none => (false, st, [authCall])
        | some tok =>
          let energyCall := HttpCall.get cfg.energyUrl (some ("Bearer " ++ tok))
          if env.energyStatus ≠ HTTP_CODE_OK then
            (false, st, [authCall, energyCall])
          else
            match env.energyDoc with
            | none => (false, st, [authCall, energyCall])
            | some edoc =>
              let st1 : CurveStore :=
                { st with
                  batteryPercent := jsonNumField edoc ("battery_percent"),
                  dailyGeneration := jsonNumField edoc ("daily_generation"),
                  dailyConsumption := jsonNumField edoc ("daily_consumption") }
              let genArr := jsonAsArr (jsonLookup edoc ("generation_curve"))
              let consArr := jsonAsArr (jsonLookup edoc ("consumption_curve"))
              if genArr.length = POINTS_PER_DAY ∧ consArr.length = POINTS_PER_DAY then
                (true,
                 { st1 with
                   generationCurve := genArr.map jsonAsFloat,
                   consumptionCurve := consArr.map jsonAsFloat },
                 [authCall, energyCall])
              else
                (true, st1, [authCall, energyCall])

/-- fetchSmartmeterData from main.cpp. -/
def fetchSmartmeterData (cfg : MeterConfig) (env : MeterEnv) (st : CurveStore) :
    Bool × CurveStore × List HttpCall :=
  if cfg.host.length = 0 ∨ cfg.endpoint.length = 0 then
    (false, st, [])
  else
    let url := "http://" ++ cfg.host ++ cfg.endpoint
    let auth : Option String :=
      if 0 < cfg.token.length then some ("Bearer " ++ cfg.token) else none
    let call := HttpCall.get url auth
    if env.status ≠ HTTP_CODE_OK then
      (false, st, [call])
    else
      match env.doc with
      | none => (false, st, [call])
      | some doc =>
        let st1 : CurveStore :=
          { st with
            batteryPercent := jsonNumField doc ("battery_percent"),
            dailyGeneration := jsonNumField doc ("daily_generation"),
            dailyConsumption := jsonNumField doc ("daily_consumption") }
        let genArr := jsonAsArr (jsonLookup doc ("generation_curve"))
        let consArr := jsonAsArr (jsonLookup doc ("consumption_curve"))
        if genArr.length = POINTS_PER_DAY ∧ consArr.length = POINTS_PER_DAY then
          (true,
           { st1 with
             generationCurve := genArr.map jsonAsFloat,
             consumptionCurve := consArr.map jsonAsFloat },
           [call])
        else
          (true, st1, [call])

/-! ### Axis scaling (ScaleCalculator)

The candidate-ladder computation lives in the layout sketch:
arrayMax and roundUpToNiceValue.  The firmware graph additionally
clamps its scaling divisor, modelled below as drawGraphScale. -/

/-- The fixed ascending candidate ladder of the layout sketch. -/
def niceLadder : List ℚ := [10, 20, 25, 50, 100, 200, 250, 500, 1000, 2000, 5000]

/-- floor of log base 10, used by the ladder fallback; the fallback is
only reached for v above the largest ladder entry, where v is at least 1
and floor of log10 of v equals Nat.log 10 of the integer part of v. -/
def log10floor (v : ℚ) : Nat := Nat.log 10 (⌊v⌋).toNat

/-- roundUpToNiceValue from the layout sketch: the first ladder entry
at least v, else ceil to one significant digit. -/
def roundUpToNiceValue (v : ℚ) : ℚ :=
  match niceLadder.find? (fun n => decide (v ≤ n)) with
  | some n => n
  | none =>
      let base : ℚ := (10 : ℚ) ^ log10floor v
      (⌈v / base⌉ : ℚ) * base

/-- arrayMax from the layout sketch: seeded with the first element,
folded with max; 0 for the (never passed) empty array. -/
def arrayMax (arr : List ℚ) : ℚ :=
  match arr with
  | [] => 0
  | x :: xs => xs.foldl max x

/-- The axis maximum computed jointly over the two series:
roundUpToNiceValue of the larger of the two series maxima. -/
def computeAxisMax (gen cons : List ℚ) : ℚ :=
  roundUpToNiceValue (max (arrayMax gen) (arrayMax cons))

/-! ### Firmware graph renderer (drawGraph in main.cpp) -/

/-- Graph geometry of the firmware drawGraph. -/
def graphX0 : Nat := 10

/-- Graph top edge. -/
def graphY0 : Nat := 20

/-- Graph width in pixels. -/
def graphWidth : Nat := 300

/-- Graph height in pixels. -/
def graphHeight : Nat := 130

/-- The value maximum the firmware drawGraph computes: fold of max over
both curves (indexed together, as the source loops over the generation
indices reading both arrays), seeded with 0. -/
def drawGraphDataMax (gen cons : List ℚ) : ℚ :=
  (gen.zip cons).foldl (fun m p => max (max m p.1) p.2) 0

/-- The scaling divisor of the firmware drawGraph: the data maximum
clamped from below to 1 (avoid division by zero). -/
def drawGraphScale (gen cons : List ℚ) : ℚ :=
  if drawGraphDataMax gen cons < 1 then 1 else drawGraphDataMax gen cons

/-- Truncation toward zero, the C float-to-int conversion. -/
def truncQ (q : ℚ) : ℤ :=
  if 0 ≤ q then ⌊q⌋ else ⌈q⌉

/-- The x pixel of sample i in the firmware drawGraph:
x0 + (graphWidth * i) / POINTS_PER_DAY with integer division. -/
def xCoord (i : Nat) : Nat :=
  graphX0 + (graphWidth * i) / POINTS_PER_DAY

/-- The y pixel of value v at divisor maxVal in the firmware drawGraph:
the int cast of y0 + graphHeight - (v / maxVal) * graphHeight. -/
def yCoord (v maxVal : ℚ) : ℤ :=
  truncQ ((graphY0 : ℚ) + (graphHeight : ℚ) - v / maxVal * (graphHeight : ℚ))

/-! ### Numeric rows (drawNumbers in main.cpp) -/

/-- Left-pad a string with spaces to the given width. -/
def padLeft (s : String) (w : Nat) : String :=
  if s.length < w then String.mk (List.replicate (w - s.length) ' ') ++ s else s

/-- sprintf fixed-point formatting with a minimum field width: round to
prec decimals (to nearest), print with exactly prec decimals, pad on the
left with spaces to the width. -/
def formatFixed (width prec : Nat) (q : ℚ) : String :=
  let scaled : ℤ := ⌊q * (10 : ℚ) ^ prec + 1 / 2⌋
  let sign := if scaled < 0 then "-" else ""
  let digs := toString scaled.natAbs
  let digs := if digs.length < prec + 1 then
      String.mk (List.replicate (prec + 1 - digs.length) '0') ++ digs
    else digs
  let ip := digs.take (digs.length - prec)
  let fp := digs.drop (digs.length - prec)
  padLeft (sign ++ ip ++ (if prec = 0 then "" else "." ++ fp)) width

/-- The battery row value: "-- %" for NaN, else sprintf "%5.1f %%". -/
def batteryText (b : Option ℚ) : String :=
  match b with
  | none => "-- %"
  | some v => formatFixed 5 1 v ++ " %"

/-- The generation row value: "-- kWh" for NaN, else sprintf "%5.2f kWh". -/
def generatedText (g : Option ℚ) : String :=
  match g with
  | none => "-- kWh"
  | some v => formatFixed 5 2 v ++ " kWh"

/-- The consumption row value: "-- kWh" for NaN, else sprintf "%5.2f kWh". -/
def consumedText (c : Option ℚ) : String :=
  match c with
  | none => "-- kWh"
  | some v => formatFixed 5 2 v ++ " kWh"

/-- The six strings drawn by the three numeric rows of drawNumbers,
in drawing order. -/
def drawNumbers (battery dailyGen dailyCons : Option ℚ) : List String :=
  [("Battery:"), batteryText battery,
   ("Generated:"), generatedText dailyGen,
   ("Consumed:"), consumedText dailyCons]

/-! ### Timestamp handling (updateTimestamp in main.cpp) -/

/-- Two-digit zero-padded decimal, as produced by strftime fields. -/
def twoDigits (n : Nat) : String :=
  (if n < 10 then "0" else "") ++ toString n

/-- strftime "%H:%M:%S" of a Unix epoch under gmtime. -/
def formatHMS (epoch : Nat) : String :=
  twoDigits (epoch / 3600 % 24) ++ ":" ++ twoDigits (epoch / 60 % 60) ++ ":"
    ++ twoDigits (epoch % 60)

/-- updateTimestamp from main.cpp: leaves the current string unchanged
when the epoch is below the synchronization threshold 100000, otherwise
replaces it with the formatted time of day. -/
def updateTimestamp (epoch : Nat) (cur : String) : String :=
  if epoch < 100000 then cur else formatHMS epoch

/-! ### The control loop (loop in main.cpp) -/

/-- Operation mode. -/
inductive Mode where
  | ankerCloud
  | localSmartmeter

/-- What the display currently shows. -/
inductive Screen where
  | boot
  | data (store : CurveStore) (updated : String)
  | message (msg : String)
deriving DecidableEq

/-- Persistent state across loop iterations: the static lastUpdate
millis value, the global lastUpdateStr, the screen content, and the last
store actually rendered by a successful redraw (an observation recording
what drawGraph and drawNumbers last drew). -/
structure SysState where
  lastUpdate : Nat
  lastUpdateStr : String
  screen : Screen
  rendered : Option CurveStore
deriving DecidableEq

/-- State at entry to the first loop iteration: lastUpdate is 0, the
timestamp shows the placeholder, nothing rendered yet. -/
def initState : SysState :=
  ⟨0, "--:--:--", Screen.boot, none⟩

/-- Full endpoint configuration. -/
structure Config where
  anker : AnkerConfig
  meter : MeterConfig

/-- Transport environment of one loop iteration. -/
structure Env where
  cloud : CloudEnv
  meter : MeterEnv

/-- The externally supplied inputs of one loop iteration: the millis
clock (already reduced modulo 2^32), whether a touch inside the refresh
button bounds was observed, the transport environment, and the wall
clock epoch at timestamp update. -/
structure StepInput where
  now : Nat
  force : Bool
  env : Env
  epoch : Nat

/-- 2^32, the modulus of uint32_t arithmetic. -/
def U32 : Nat := 4294967296

/-- uint32_t subtraction a - b with wraparound. -/
def u32sub (a b : Nat) : Nat :=
  (a % U32 + (U32 - b % U32)) % U32

/-- The trigger condition of main.cpp line 238:
now - lastUpdate >= REFRESH_INTERVAL_MS || lastUpdate == 0 || forceRefresh. -/
def shouldFetch (st : SysState) (inp : StepInput) : Bool :=
  decide (REFRESH_INTERVAL_MS ≤ u32sub inp.now st.lastUpdate)
    || decide (st.lastUpdate = 0) || inp.force

/-- Dispatch to the fetch of the current mode. -/
def doFetch (cfg : Config) (mode : Mode) (env : Env) (st : CurveStore) :
    Bool × CurveStore × List HttpCall :=
  match mode with
  | Mode.ankerCloud => fetchAnkerData cfg.anker env.cloud st
  | Mode.localSmartmeter => fetchSmartmeterData cfg.meter env.meter st

/-- One iteration of loop from main.cpp: when triggered, reset the
elapsed clock, fetch into a fresh zero store; on success update the
timestamp and redraw graph and numbers; on failure show the error
message.  Untriggered iterations change nothing. -/
def loopStep (cfg : Config) (mode : Mode) (st : SysState) (inp : StepInput) : SysState :=
  if shouldFetch st inp then
    let res := doFetch cfg mode inp.env emptyStore
    if res.1 then
      let newStr := updateTimestamp inp.epoch st.lastUpdateStr
      ⟨inp.now, newStr, Screen.data res.2.1 newStr, some res.2.1⟩
    else
      ⟨inp.now, st.lastUpdateStr, Screen.message ("Data fetch error"), st.rendered⟩
  else st

/-- Iterated loop from the boot state. -/
def runLoop (cfg : Config) (mode : Mode) (inputs : List StepInput) : SysState :=
  inputs.foldl (loopStep cfg mode) initState

/-! ### Helper lemmas -/

/-- The seed of a max fold bounds the fold from below. -/
lemma seed_le_foldl_max (l : List ℚ) (a : ℚ) : a ≤ l.foldl max a := by
  induction l generalizing a with
  | nil => exact le_rfl
  | cons b t ih => exact le_trans (le_max_left a b) (ih (max a b))

/-- Every member of the list bounds a max fold from below. -/
lemma mem_le_foldl_max (l : List ℚ) (a x : ℚ) (hx : x ∈ l) : x ≤ l.foldl max a := by
  induction l generalizing a with
  | nil => cases hx
  | cons b t ih =>
    rcases List.mem_cons.mp hx with h | h
    · subst h
      exact le_trans (le_max_right a x) (seed_le_foldl_max t (max a x))
    · exact ih (max a b) h

/-- A max fold is bounded by any common upper bound of seed and members. -/
lemma foldl_max_le (l : List ℚ) (a c : ℚ) (ha : a ≤ c) (h : ∀ x ∈ l, x ≤ c) :
    l.foldl max a ≤ c := by
  induction l generalizing a with
  | nil => exact ha
  | cons b t ih =>
    exact ih (max a b) (max_le ha (h b (List.mem_cons_self b t)))
      (fun x hx => h x (List.mem_cons_of_mem b hx))

/-- Every member is at most arrayMax. -/
lemma mem_le_arrayMax (l : List ℚ) (x : ℚ) (hx : x ∈ l) : x ≤ arrayMax l := by
  cases l with
  | nil => cases hx
  | cons b t =>
    rcases List.mem_cons.mp hx with h | h
    · subst h
      exact seed_le_foldl_max t x
    · exact mem_le_foldl_max t b x h

/-- arrayMax of a nonempty list is at most any common upper bound. -/
lemma arrayMax_le (l : List ℚ) (c : ℚ) (hne : l ≠ []) (h : ∀ x ∈ l, x ≤ c) :
    arrayMax l ≤ c := by
  cases l with
  | nil => exact absurd rfl hne
  | cons b t =>
    exact foldl_max_le t b c (h b (List.mem_cons_self b t))
      (fun x hx => h x (List.mem_cons_of_mem b hx))

/-- On a sorted list, find? with predicate v ≤ x returns the least
element at least v, provided one exists. -/
lemma find_first_ge (l : List ℚ) (hs : l.Sorted (· ≤ ·)) (v n : ℚ)
    (hn : n ∈ l) (hvn : v ≤ n) :
    ∃ m, l.find? (fun x => decide (v ≤ x)) = some m ∧ m ∈ l ∧ v ≤ m ∧
      ∀ k ∈ l, v ≤ k → m ≤ k := by
  induction l with
  | nil => cases hn
  | cons a t ih =>
    rcases List.sorted_cons.mp hs with ⟨ha, hst⟩
    by_cases hva : v ≤ a
    · refine ⟨a, ?_, List.mem_cons_self a t, hva, ?_⟩
      · simp [List.find?_cons, hva]
      · intro k hk _
        rcases List.mem_cons.mp hk with h | h
        · subst h; exact le_rfl
        · exact ha k h
    · have hnt : n ∈ t := by
        rcases List.mem_cons.mp hn with h | h
        · subst h; exact absurd hvn hva
        · exact h
      obtain ⟨m, hfind, hmem, hvm, hmin⟩ := ih hst hnt
      refine ⟨m, ?_, List.mem_cons_of_mem a hmem, hvm, ?_⟩
      · simp [List.find?_cons, hva, hfind]
      · intro k hk hvk
        rcases List.mem_cons.mp hk with h | h
        · subst h; exact absurd hvk hva
        · exact hmin k h hvk

/-- The candidate ladder is sorted. -/
lemma niceLadder_sorted : niceLadder.Sorted (· ≤ ·) := by decide

/-- roundUpToNiceValue never falls below its argument. -/
lemma roundUp_ge (v : ℚ) : v ≤ roundUpToNiceValue v := by
  unfold roundUpToNiceValue
  cases hf : niceLadder.find? (fun n => decide (v ≤ n)) with
  | some n =>
    have hp := List.find?_some hf
    simpa using hp
  | none =>
    have hb : (0 : ℚ) < (10 : ℚ) ^ log10floor v := by positivity
    have h1 : v / (10 : ℚ) ^ log10floor v ≤ (⌈v / (10 : ℚ) ^ log10floor v⌉ : ℚ) :=
      Int.le_ceil _
    have h2 := mul_le_mul_of_nonneg_right h1 (le_of_lt hb)
    rw [div_mul_cancel₀ v (ne_of_gt hb)] at h2
    simpa using h2

/-- When some ladder entry is at least v, roundUpToNiceValue returns a
ladder entry, at least v, and minimal among ladder entries at least v. -/
lemma roundUp_min (v n : ℚ) (hn : n ∈ niceLadder) (hvn : v ≤ n) :
    roundUpToNiceValue v ∈ niceLadder ∧ v ≤ roundUpToNiceValue v ∧
      ∀ k ∈ niceLadder, v ≤ k → roundUpToNiceValue v ≤ k := by
  obtain ⟨m, hfind, hmem, hvm, hmin⟩ :=
    find_first_ge niceLadder niceLadder_sorted v n hn hvn
  unfold roundUpToNiceValue
  rw [hfind]
  exact ⟨hmem, hvm, hmin⟩

/-- C1: for nonempty non-negative input sequences, computeAxisMax is an
upper bound of every sample; whenever some ladder entry bounds all
samples, the result is the least such ladder entry; on all-zero inputs
the result is 10. -/
theorem computeAxisMax_spec (gen cons : List ℚ)
    (hg : gen ≠ []) (hc : cons ≠ [])
    (_hgn : ∀ x ∈ gen, 0 ≤ x) (_hcn : ∀ x ∈ cons, 0 ≤ x) :
    (∀ x ∈ gen ++ cons, x ≤ computeAxisMax gen cons) ∧
    ((∃ n ∈ niceLadder, ∀ x ∈ gen ++ cons, x ≤ n) →
      computeAxisMax gen cons ∈ niceLadder ∧
      ∀ k ∈ niceLadder, (∀ x ∈ gen ++ cons, x ≤ k) → computeAxisMax gen cons ≤ k) ∧
    ((∀ x ∈ gen ++ cons, x = 0) → computeAxisMax gen cons = 10) := by
  have hMle : ∀ c : ℚ, (∀ x ∈ gen ++ cons, x ≤ c) →
      max (arrayMax gen) (arrayMax cons) ≤ c := by
    intro c hxc
    refine max_le (arrayMax_le gen c hg ?_) (arrayMax_le cons c hc ?_)
    · intro x hx
      exact hxc x (List.mem_append_left cons hx)
    · intro x hx
      exact hxc x (List.mem_append_right gen hx)
  refine ⟨?_, ?_, ?_⟩
  · intro x hx
    have hxM : x ≤ max (arrayMax gen) (arrayMax cons) := by
      rcases List.mem_append.mp hx with h | h
      · exact le_trans (mem_le_arrayMax gen x h) (le_max_left _ _)
      · exact le_trans (mem_le_arrayMax cons x h) (le_max_right _ _)
    exact le_trans hxM (roundUp_ge (max (arrayMax gen) (arrayMax cons)))
  · rintro ⟨n, hn, hbound⟩
    obtain ⟨hmem, _, hmin⟩ := roundUp_min (max (arrayMax gen) (arrayMax cons)) n hn
      (hMle n hbound)
    refine ⟨hmem, ?_⟩
    intro k hk hkb
    exact hmin k hk (hMle k hkb)
  · intro hz
    have hM : max (arrayMax gen) (arrayMax cons) = 0 := by
      have hle : max (arrayMax gen) (arrayMax cons) ≤ 0 := by
        refine hMle 0 ?_
        intro x hx
        exact le_of_eq (hz x hx)
      have hge : (0 : ℚ) ≤ max (arrayMax gen) (arrayMax cons) := by
        cases gen with
        | nil => exact absurd rfl hg
        | cons b t =>
          have hb0 : b = 0 := hz b (List.mem_append_left cons (List.mem_cons_self b t))
          have hb := mem_le_arrayMax (b :: t) b (List.mem_cons_self b t)
          have h0b : (0 : ℚ) ≤ b := le_of_eq hb0.symm
          exact le_trans (le_trans h0b hb) (le_max_left _ _)
      exact le_antisymm hle hge
    unfold computeAxisMax
    rw [hM]
    unfold roundUpToNiceValue niceLadder
    rw [List.find?_cons_of_pos]
    norm_num

/-- Witness for C1 at the all-zero input. -/
theorem computeAxisMax_spec_witness :
    ([(0 : ℚ)] ≠ ([] : List ℚ)) ∧ computeAxisMax [(0 : ℚ)] [(0 : ℚ)] = 10 :=
  ⟨by simp,
   (computeAxisMax_spec [(0 : ℚ)] [(0 : ℚ)] (by simp) (by simp) (by norm_num)
      (by norm_num)).2.2 (by norm_num)⟩

/-- C5: with an empty authentication or energy URL (cloud) or an empty
host or endpoint (smart meter), the fetch fails immediately, leaves the
store untouched, and performs no transport call. -/
theorem config_missing_no_transport (cfgA : AnkerConfig) (cfgM : MeterConfig)
    (envC : CloudEnv) (envM : MeterEnv) (st : CurveStore)
    (hA : cfgA.authUrl.length = 0 ∨ cfgA.energyUrl.length = 0)
    (hM : cfgM.host.length = 0 ∨ cfgM.endpoint.length = 0) :
    fetchAnkerData cfgA envC st = (false, st, []) ∧
    fetchSmartmeterData cfgM envM st = (false, st, []) := by
  constructor
  · unfold fetchAnkerData
    rw [if_pos hA]
  · unfold fetchSmartmeterData
    rw [if_pos hM]

/-- Witness for C5 at blank configurations. -/
theorem config_missing_no_transport_witness :
    (("" : String).length = 0) ∧
    fetchAnkerData ⟨"", "", "u", "p", "DE"⟩ ⟨200, none, 200, none⟩ emptyStore
      = (false, emptyStore, []) :=
  ⟨rfl,
   (config_missing_no_transport ⟨"", "", "u", "p", "DE"⟩ ⟨"", "", ""⟩
      ⟨200, none, 200, none⟩ ⟨200, none⟩ emptyStore (Or.inl rfl) (Or.inl rfl)).1⟩

/-- C10: the firmware graph scaling divisor is clamped to at least 1
before any division, for every pair of input curves, so no y-coordinate
computation ever divides by zero. -/
theorem graph_scale_clamped (gen cons : List ℚ) :
    1 ≤ drawGraphScale gen cons ∧ drawGraphScale gen cons ≠ 0 := by
  have h1 : 1 ≤ drawGraphScale gen cons := by
    unfold drawGraphScale
    split
    · exact le_rfl
    · exact le_of_not_lt (by assumption)
  refine ⟨h1, ?_⟩
  intro h0
  rw [h0] at h1
  exact absurd h1 (by norm_num)

/-- C6 counterexample: in the firmware drawGraph, the last sample index
POINTS_PER_DAY - 1 = 23 maps to pixel 297, not to the right edge
x0 + graphWidth = 310, so the claimed full-span mapping fails. -/
theorem coord_mapping_counterexample :
    xCoord (POINTS_PER_DAY - 1) = 297 ∧ graphX0 + graphWidth = 310 ∧
    xCoord (POINTS_PER_DAY - 1) ≠ graphX0 + graphWidth :=
  ⟨by decide, by decide, by decide⟩

/-- C6 amended: index i maps to x0 + (graphWidth * i) / POINTS_PER_DAY
(monotone, starting at x0 but ending at 297, inside the right edge), and
value v maps to the integer truncation of
y0 + graphHeight - (v / axisMax) * graphHeight, so larger values render
higher (weakly, by antitonicity of the y coordinate). -/
theorem coord_mapping_amended (v₁ v₂ maxVal : ℚ) (i j : Nat)
    (hm : 1 ≤ maxVal) (h1 : 0 ≤ v₁) (h12 : v₁ ≤ v₂) (h2 : v₂ ≤ maxVal) (hij : i ≤ j) :
    xCoord 0 = graphX0 ∧
    xCoord i ≤ xCoord j ∧
    xCoord (POINTS_PER_DAY - 1) = 297 ∧
    yCoord v₁ maxVal = ⌊(graphY0 : ℚ) + (graphHeight : ℚ) - v₁ / maxVal * (graphHeight : ℚ)⌋ ∧
    yCoord v₂ maxVal ≤ yCoord v₁ maxVal ∧
    yCoord 0 maxVal = (graphY0 : ℤ) + (graphHeight : ℤ) ∧
    yCoord maxVal maxVal = (graphY0 : ℤ) := by
  have hmpos : (0 : ℚ) < maxVal := lt_of_lt_of_le one_pos hm
  have hgh : (0 : ℚ) ≤ (graphHeight : ℚ) := by norm_num
  have hexpr : ∀ v : ℚ, 0 ≤ v → v ≤ maxVal →
      0 ≤ (graphY0 : ℚ) + (graphHeight : ℚ) - v / maxVal * (graphHeight : ℚ) := by
    intro v _h0 hvm
    have hr1 : v / maxVal ≤ 1 := (div_le_one hmpos).mpr hvm
    have hr2 := mul_le_mul_of_nonneg_right hr1 hgh
    rw [one_mul] at hr2
    have h0g : (0 : ℚ) ≤ (graphY0 : ℚ) := by norm_num
    linarith
  have hfloor : ∀ v : ℚ, 0 ≤ v → v ≤ maxVal →
      yCoord v maxVal =
        ⌊(graphY0 : ℚ) + (graphHeight : ℚ) - v / maxVal * (graphHeight : ℚ)⌋ := by
    intro v h0 hvm
    unfold yCoord truncQ
    rw [if_pos (hexpr v h0 hvm)]
  refine ⟨by decide, ?_, by decide, hfloor v₁ h1 (le_trans h12 h2), ?_, ?_, ?_⟩
  · unfold xCoord
    exact Nat.add_le_add_left (Nat.div_le_div_right (Nat.mul_le_mul_left graphWidth hij))
      graphX0
  · rw [hfloor v₁ h1 (le_trans h12 h2), hfloor v₂ (le_trans h1 h12) h2]
    apply Int.floor_le_floor
    have hd : v₁ / maxVal ≤ v₂ / maxVal := by gcongr
    have hd2 := mul_le_mul_of_nonneg_right hd hgh
    linarith
  · rw [hfloor 0 le_rfl (le_of_lt hmpos), zero_div, zero_mul, sub_zero]
    norm_num [graphY0, graphHeight]
  · rw [hfloor maxVal (le_of_lt hmpos) le_rfl, div_self (ne_of_gt hmpos), one_mul]
    norm_num [graphY0, graphHeight]

/-- Witness for C6 amended: at axis maximum 1 the value 1 renders at the
graph top edge. -/
theorem coord_mapping_amended_witness :
    ((1 : ℚ) ≤ 1) ∧ yCoord 1 1 = (graphY0 : ℤ) :=
  ⟨le_rfl,
   (coord_mapping_amended 0 1 1 0 23 le_rfl le_rfl (by norm_num) le_rfl
      (by norm_num)).2.2.2.2.2.2⟩

/-- sprintf "%5.1f" of 78.4 gives a leading pad space. -/
lemma formatFixed_784 : formatFixed 5 1 (784 / 10 : ℚ) = (" 78.4") := by
  have h : ⌊(784 / 10 : ℚ) * 10 ^ (1 : ℕ) + 1 / 2⌋ = (784 : ℤ) := by norm_num
  unfold formatFixed
  rw [h]
  decide

/-- sprintf "%5.2f" of 4.21 gives a leading pad space. -/
lemma formatFixed_421 : formatFixed 5 2 (421 / 100 : ℚ) = (" 4.21") := by
  have h : ⌊(421 / 100 : ℚ) * 10 ^ (2 : ℕ) + 1 / 2⌋ = (421 : ℤ) := by norm_num
  unfold formatFixed
  rw [h]
  decide

/-- sprintf "%5.2f" of 3.14 gives a leading pad space. -/
lemma formatFixed_314 : formatFixed 5 2 (314 / 100 : ℚ) = (" 3.14") := by
  have h : ⌊(314 / 100 : ℚ) * 10 ^ (2 : ℕ) + 1 / 2⌋ = (314 : ℤ) := by norm_num
  unfold formatFixed
  rw [h]
  decide

/-- C7 counterexample: with battery 78.4 the firmware draws the battery
row value as " 78.4 %" (the %5.1f width pads with a leading space), not
exactly "78.4 %" as claimed. -/
theorem numbers_format_counterexample :
    batteryText (some (784 / 10 : ℚ)) = (" 78.4 %") ∧
    batteryText (some (784 / 10 : ℚ)) ≠ ("78.4 %") := by
  have h : batteryText (some (784 / 10 : ℚ)) = (" 78.4 %") := by
    simp only [batteryText]
    rw [formatFixed_784]
    decide
  exact ⟨h, by rw [h]; decide⟩

/-- C7 amended: after a successful fetch with battery 78.4, daily
generation 4.21 and daily consumption 3.14, the numeric rows are drawn
as " 78.4 %", " 4.21 kWh" and " 3.14 kWh" (width-5 right-justified), and
every unknown (NaN) value renders "--" in place of the number. -/
theorem numbers_format_amended :
    drawNumbers (some (784 / 10 : ℚ)) (some (421 / 100 : ℚ)) (some (314 / 100 : ℚ)) =
      [("Battery:"), (" 78.4 %"), ("Generated:"), (" 4.21 kWh"),
       ("Consumed:"), (" 3.14 kWh")] ∧
    drawNumbers none none none =
      [("Battery:"), ("-- %"), ("Generated:"), ("-- kWh"), ("Consumed:"), ("-- kWh")] := by
  constructor
  · simp only [drawNumbers, batteryText, generatedText, consumedText]
    rw [formatFixed_784, formatFixed_421, formatFixed_314]
    decide
  · rfl

/-! ### Concrete fixtures for witnesses and counterexamples -/

/-- A filled-in cloud configuration. -/
def cexAnkerConfig : AnkerConfig :=
  ⟨"https://auth.example", "https://energy.example", "user", "pw", "DE"⟩

/-- A filled-in smart-meter configuration. -/
def cexMeterConfig : MeterConfig := ⟨"192.168.0.50", "/api/daily", ""⟩

/-- A successful authentication body. -/
def cexAuthDoc : JsonVal := JsonVal.obj [("access_token", JsonVal.str ("tok"))]

/-- A constant curve of the given length as a JSON array. -/
def cexCurveJson (q : ℚ) (len : Nat) : JsonVal :=
  JsonVal.arr (List.replicate len (JsonVal.num q))

/-- An energy body with battery 50 and two well-formed 24-point curves. -/
def cexEnergyDoc1 : JsonVal :=
  JsonVal.obj [("battery_percent", JsonVal.num 50),
               ("generation_curve", cexCurveJson 5 24),
               ("consumption_curve", cexCurveJson 3 24)]

/-- An energy body with battery 60, a 24-point generation curve and a
23-point consumption curve (shape mismatch). -/
def cexEnergyDoc2 : JsonVal :=
  JsonVal.obj [("battery_percent", JsonVal.num 60),
               ("generation_curve", cexCurveJson 7 24),
               ("consumption_curve", cexCurveJson 7 23)]

/-- A meter environment that is never consulted in cloud mode. -/
def cexMeterEnvIdle : MeterEnv := ⟨0, none⟩

/-- Cloud environment delivering cexEnergyDoc1. -/
def cexCloudEnv1 : CloudEnv := ⟨200, some cexAuthDoc, 200, some cexEnergyDoc1⟩

/-- Cloud environment delivering cexEnergyDoc2. -/
def cexCloudEnv2 : CloudEnv := ⟨200, some cexAuthDoc, 200, some cexEnergyDoc2⟩

/-- Full configuration (cloud filled in, meter blank). -/
def cexConfig : Config := ⟨cexAnkerConfig, ⟨"", "", ""⟩⟩

/-- Iteration environment delivering cexEnergyDoc1. -/
def cexEnv1 : Env := ⟨cexCloudEnv1, cexMeterEnvIdle⟩

/-- Iteration environment delivering cexEnergyDoc2. -/
def cexEnv2 : Env := ⟨cexCloudEnv2, cexMeterEnvIdle⟩

/-- Iteration environment in which the authentication request fails. -/
def cexFailEnv : Env := ⟨⟨500, none, 500, none⟩, cexMeterEnvIdle⟩

/-- First loop iteration input (good data). -/
def cexInp1 : StepInput := ⟨1000, false, cexEnv1, 0⟩

/-- Second loop iteration input, past the refresh interval (mismatched
data). -/
def cexInp2 : StepInput := ⟨400000, false, cexEnv2, 0⟩

/-- A first loop iteration input whose fetch fails. -/
def cexInpFail : StepInput := ⟨1000, false, cexFailEnv, 0⟩

/-- State after rendering the good data. -/
def cexState1 : SysState := loopStep cexConfig Mode.ankerCloud initState cexInp1

/-- State after the follow-up iteration with mismatched data. -/
def cexState2 : SysState := loopStep cexConfig Mode.ankerCloud cexState1 cexInp2

/-- C2 counterexample: a successful render shows the curve value 5
everywhere; a following fetch whose consumption array has length 23
still succeeds, but the displayed curves drop to the fresh all-zero
arrays of the loop iteration instead of staying at the previously
rendered values, refuting the claim that the curves remain unchanged
from the prior rendered store. -/
theorem shape_mismatch_counterexample :
    cexState1.rendered =
      some ⟨some 50, none, none, List.replicate 24 (5 : ℚ), List.replicate 24 (3 : ℚ)⟩ ∧
    cexState2.screen =
      Screen.data ⟨some 60, none, none, List.replicate 24 (0 : ℚ),
        List.replicate 24 (0 : ℚ)⟩ ("--:--:--") ∧
    List.replicate 24 (0 : ℚ) ≠ List.replicate 24 (5 : ℚ) :=
  ⟨by decide, by decide, by decide⟩

/-- C2 amended: a fetch whose response is well-formed JSON with success
status but whose curve arrays do not both have length POINTS_PER_DAY
still returns success; the scalar fields are applied, and the curve
arrays remain unchanged from the caller-supplied store — which in the
loop is a fresh all-zero store, not the previously rendered one. -/
theorem fetch_shape_mismatch_partial (cfg : AnkerConfig) (env : CloudEnv)
    (st : CurveStore) (adoc edoc : JsonVal) (tok : String)
    (hA : cfg.authUrl.length ≠ 0) (hE : cfg.energyUrl.length ≠ 0)
    (hs1 : env.authStatus = HTTP_CODE_OK) (hd1 : env.authDoc = some adoc)
    (htok : jsonAsStr (jsonLookup adoc ("access_token")) = some tok)
    (hs2 : env.energyStatus = HTTP_CODE_OK) (hd2 : env.energyDoc = some edoc)
    (hlen : ¬((jsonAsArr (jsonLookup edoc ("generation_curve"))).length = POINTS_PER_DAY ∧
              (jsonAsArr (jsonLookup edoc ("consumption_curve"))).length = POINTS_PER_DAY)) :
    (fetchAnkerData cfg env st).1 = true ∧
    (fetchAnkerData cfg env st).2.1.generationCurve = st.generationCurve ∧
    (fetchAnkerData cfg env st).2.1.consumptionCurve = st.consumptionCurve ∧
    (fetchAnkerData cfg env st).2.1.batteryPercent = jsonNumField edoc ("battery_percent") ∧
    (fetchAnkerData cfg env st).2.1.dailyGeneration = jsonNumField edoc ("daily_generation") ∧
    (fetchAnkerData cfg env st).2.1.dailyConsumption
      = jsonNumField edoc ("daily_consumption") := by
  have h0 : ¬(cfg.authUrl.length = 0 ∨ cfg.energyUrl.length = 0) := by
    push_neg
    exact ⟨hA, hE⟩
  simp only [fetchAnkerData, h0, hs1, hd1, htok, hs2, hd2, hlen, ne_eq,
    not_true_eq_false, if_false, ite_false, if_neg, not_false_eq_true, ite_true]
  simp [hlen]

/-- Witness for C2 amended at the concrete mismatched response. -/
theorem fetch_shape_mismatch_partial_witness :
    ((jsonAsArr (jsonLookup cexEnergyDoc2 ("consumption_curve"))).length ≠ POINTS_PER_DAY) ∧
    (fetchAnkerData cexAnkerConfig cexCloudEnv2 emptyStore).1 = true ∧
    (fetchAnkerData cexAnkerConfig cexCloudEnv2 emptyStore).2.1.generationCurve
      = emptyStore.generationCurve := by
  have h := fetch_shape_mismatch_partial cexAnkerConfig cexCloudEnv2 emptyStore
    cexAuthDoc cexEnergyDoc2 ("tok") (by decide) (by decide) rfl rfl (by decide)
    rfl rfl (by decide)
  exact ⟨by decide, h.1, h.2.1⟩

/-- C3: when a triggered fetch fails, the last rendered store is
retained unchanged, the screen shows only the transient error message,
the timestamp string is untouched, and the next triggered successful
fetch replaces the error screen with a data redraw. -/
theorem failed_fetch_retains_display (cfg : Config) (mode : Mode) (st : SysState)
    (inp inp2 : StepInput)
    (hTrig : shouldFetch st inp = true)
    (hFail : (doFetch cfg mode inp.env emptyStore).1 = false)
    (hTrig2 : shouldFetch (loopStep cfg mode st inp) inp2 = true)
    (hSucc2 : (doFetch cfg mode inp2.env emptyStore).1 = true) :
    (loopStep cfg mode st inp).rendered = st.rendered ∧
    (loopStep cfg mode st inp).screen = Screen.message ("Data fetch error") ∧
    (loopStep cfg mode st inp).lastUpdateStr = st.lastUpdateStr ∧
    (loopStep cfg mode (loopStep cfg mode st inp) inp2).screen =
      Screen.data (doFetch cfg mode inp2.env emptyStore).2.1
        (updateTimestamp inp2.epoch st.lastUpdateStr) := by
  have h1 : loopStep cfg mode st inp =
      ⟨inp.now, st.lastUpdateStr, Screen.message ("Data fetch error"), st.rendered⟩ := by
    unfold loopStep
    rw [if_pos hTrig]
    simp only [hFail, Bool.false_eq_true, if_false, ite_false]
  have h2 : loopStep cfg mode (loopStep cfg mode st inp) inp2 =
      ⟨inp2.now, updateTimestamp inp2.epoch st.lastUpdateStr,
        Screen.data (doFetch cfg mode inp2.env emptyStore).2.1
          (updateTimestamp inp2.epoch st.lastUpdateStr),
        some (doFetch cfg mode inp2.env emptyStore).2.1⟩ := by
    rw [h1] at hTrig2 ⊢
    unfold loopStep
    rw [if_pos hTrig2]
    simp only [hSucc2, if_true, ite_true]
  rw [h2, h1]
  exact ⟨rfl, rfl, rfl, rfl⟩

/-- Witness for C3: a failed authentication leaves the boot state
rendered data untouched and shows the error message. -/
theorem failed_fetch_retains_display_witness :
    ((doFetch cexConfig Mode.ankerCloud cexFailEnv emptyStore).1 = false) ∧
    (loopStep cexConfig Mode.ankerCloud initState cexInpFail).screen
      = Screen.message ("Data fetch error") ∧
    (loopStep cexConfig Mode.ankerCloud initState cexInpFail).rendered
      = initState.rendered := by
  have h := failed_fetch_retains_display cexConfig Mode.ankerCloud initState
    cexInpFail cexInp2 (by decide) (by decide) (by decide) (by decide)
  exact ⟨by decide, h.2.1, h.1⟩

/-- C4: the loop attempts a fetch exactly when the 32-bit elapsed time
since the last attempt reaches the refresh interval, or no attempt has
been recorded (lastUpdate = 0, as in the initial state), or a manual
trigger was observed; the elapsed clock resets to the current millis on
every attempt regardless of outcome, and an untriggered iteration
changes nothing. -/
theorem refresh_trigger_spec (cfg : Config) (mode : Mode) (st : SysState)
    (inp : StepInput) (hnow : inp.now < U32) (hlast : st.lastUpdate < U32) :
    (shouldFetch st inp = true ↔
      (REFRESH_INTERVAL_MS ≤ u32sub inp.now st.lastUpdate ∨ st.lastUpdate = 0 ∨
        inp.force = true)) ∧
    (st.lastUpdate ≤ inp.now → u32sub inp.now st.lastUpdate = inp.now - st.lastUpdate) ∧
    initState.lastUpdate = 0 ∧
    (shouldFetch st inp = true → (loopStep cfg mode st inp).lastUpdate = inp.now) ∧
    (shouldFetch st inp = false → loopStep cfg mode st inp = st) := by
  refine ⟨?_, ?_, rfl, ?_, ?_⟩
  · simp [shouldFetch, or_assoc]
  · intro hle
    unfold u32sub U32 at *
    omega
  · intro h
    unfold loopStep
    rw [if_pos h]
    cases hr : (doFetch cfg mode inp.env emptyStore).1 <;> simp [hr]
  · intro h
    unfold loopStep
    rw [if_neg (by simp [h])]

/-- Witness for C4 on the very first iteration. -/
theorem refresh_trigger_spec_witness :
    ((1000 : Nat) < U32) ∧
    (loopStep cexConfig Mode.ankerCloud initState cexInp1).lastUpdate = 1000 := by
  have h := refresh_trigger_spec cexConfig Mode.ankerCloud initState cexInp1
    (by decide) (by decide)
  exact ⟨by decide, h.2.2.2.1 (by decide)⟩

/-- Auxiliary invariant for C8: as long as every successful fetch
happens with an unsynchronized clock, the timestamp string never leaves
its current placeholder value. -/
lemma runLoop_placeholder_aux (cfg : Config) (mode : Mode) (inputs : List StepInput)
    (st : SysState) (hst : st.lastUpdateStr = "--:--:--")
    (h : ∀ inp ∈ inputs, (doFetch cfg mode inp.env emptyStore).1 = true →
      inp.epoch < 100000) :
    (inputs.foldl (loopStep cfg mode) st).lastUpdateStr = "--:--:--" := by
  induction inputs generalizing st with
  | nil => simpa using hst
  | cons a t ih =>
    rw [List.foldl_cons]
    apply ih
    · unfold loopStep
      by_cases htr : shouldFetch st a = true
      · rw [if_pos htr]
        cases hr : (doFetch cfg mode a.env emptyStore).1 with
        | false => simpa [hr] using hst
        | true =>
          have hep := h a (List.mem_cons_self a t) hr
          simp only [hr, ite_true, if_true]
          simpa [updateTimestamp, hep] using hst
      · rw [if_neg htr]
        exact hst
    · intro inp hmem hok
      exact h inp (List.mem_cons_of_mem a hmem) hok

/-- C8: the timestamp line holds the placeholder "--:--:--" from boot,
updateTimestamp leaves the string unchanged whenever the epoch is below
the synchronization threshold, and since the loop only invokes it on
fetch success, the placeholder persists across any run in which every
successful fetch happens before clock synchronization. -/
theorem timestamp_placeholder_spec (cfg : Config) (mode : Mode)
    (inputs : List StepInput) (epoch : Nat) (cur : String)
    (h : ∀ inp ∈ inputs, (doFetch cfg mode inp.env emptyStore).1 = true →
      inp.epoch < 100000)
    (hepoch : epoch < 100000) :
    (runLoop cfg mode inputs).lastUpdateStr = "--:--:--" ∧
    updateTimestamp epoch cur = cur ∧
    initState.lastUpdateStr = "--:--:--" := by
  refine ⟨runLoop_placeholder_aux cfg mode inputs initState rfl h, ?_, rfl⟩
  unfold updateTimestamp
  rw [if_pos hepoch]

/-- Witness for C8: one successful fetch before clock sync keeps the
placeholder. -/
theorem timestamp_placeholder_spec_witness :
    ((99999 : Nat) < 100000) ∧
    (runLoop cexConfig Mode.ankerCloud [cexInp1]).lastUpdateStr = "--:--:--" := by
  have h := timestamp_placeholder_spec cexConfig Mode.ankerCloud [cexInp1] 99999 ("x")
    (by decide) (by decide)
  exact ⟨by decide, h.1⟩

/-- C9: in either mode, a success-status response whose body is
well-formed JSON with every expected field absent (the empty object)
still yields a successful fetch: all three scalars become NaN (none)
and both curve arrays keep the caller-supplied values. -/
theorem empty_json_success (cfgA : AnkerConfig) (cfgM : MeterConfig)
    (envC : CloudEnv) (envM : MeterEnv) (st : CurveStore) (adoc : JsonVal) (tok : String)
    (hA : cfgA.authUrl.length ≠ 0) (hE : cfgA.energyUrl.length ≠ 0)
    (hs1 : envC.authStatus = HTTP_CODE_OK) (hd1 : envC.authDoc = some adoc)
    (htok : jsonAsStr (jsonLookup adoc ("access_token")) = some tok)
    (hs2 : envC.energyStatus = HTTP_CODE_OK) (hd2 : envC.energyDoc = some (JsonVal.obj []))
    (hH : cfgM.host.length ≠ 0) (hP : cfgM.endpoint.length ≠ 0)
    (hms : envM.status = HTTP_CODE_OK) (hmd : envM.doc = some (JsonVal.obj [])) :
    (fetchAnkerData cfgA envC st).1 = true ∧
    (fetchAnkerData cfgA envC st).2.1 =
      { st with batteryPercent := none, dailyGeneration := none,
                dailyConsumption := none } ∧
    (fetchSmartmeterData cfgM envM st).1 = true ∧
    (fetchSmartmeterData cfgM envM st).2.1 =
      { st with batteryPercent := none, dailyGeneration := none,
                dailyConsumption := none } := by
  have h0 : ¬(cfgA.authUrl.length = 0 ∨ cfgA.energyUrl.length = 0) := by
    push_neg
    exact ⟨hA, hE⟩
  have h0m : ¬(cfgM.host.length = 0 ∨ cfgM.endpoint.length = 0) := by
    push_neg
    exact ⟨hH, hP⟩
  have hshape : ¬((jsonAsArr (jsonLookup (JsonVal.obj []) ("generation_curve"))).length
        = POINTS_PER_DAY ∧
      (jsonAsArr (jsonLookup (JsonVal.obj []) ("consumption_curve"))).length
        = POINTS_PER_DAY) := by
    decide
  have hnum : ∀ key : String, jsonNumField (JsonVal.obj []) key = none := by
    intro key
    rfl
  refine ⟨?_, ?_, ?_, ?_⟩ <;>
    simp only [fetchAnkerData, fetchSmartmeterData, h0, h0m, hs1, hd1, htok, hs2, hd2,
      hms, hmd, hshape, hnum, ne_eq, not_true_eq_false, if_false, ite_false,
      not_false_eq_true, ite_true, if_true]

/-- Witness for C9 at concrete empty-object responses. -/
theorem empty_json_success_witness :
    ((fetchAnkerData cexAnkerConfig ⟨200, some cexAuthDoc, 200,
        some (JsonVal.obj [])⟩ emptyStore).1 = true) ∧
    (fetchSmartmeterData cexMeterConfig ⟨200, some (JsonVal.obj [])⟩ emptyStore).2.1
      = { emptyStore with batteryPercent := none, dailyGeneration := none,
                          dailyConsumption := none } := by
  have h := empty_json_success cexAnkerConfig cexMeterConfig
    ⟨200, some cexAuthDoc, 200, some (JsonVal.obj [])⟩
    ⟨200, some (JsonVal.obj [])⟩ emptyStore cexAuthDoc ("tok")
    (by decide) (by decide) rfl rfl (by decide) rfl rfl (by decide) (by decide) rfl rfl
  exact ⟨h.1, h.2.2.2⟩

end Solix
